import Mathlib

/-!
# Verification of the Zuzzuu webpush background workers

Shallow embedding of the service-worker sources of this repository:

* `ESW` models the enhanced Socket.IO service worker
  (`src/unnamed/part_004`, second document): notification dedup cache,
  `isDuplicateNotification`, `handleNotificationEvent`, the
  `socket.onclose` reconnect policy and `cleanupNotificationCache`.
* `WS` models the plain-WebSocket workers `src/sw.js` and
  `src/zuzzuu-sw.js` (their `connectWebSocket` guards are identical):
  connection state, cooldown, and the identity close-guard.
* `ZSW` models the push-payload normalizer and `checkAndNotifyClients`
  of `src/zuzzuu-sw.js`.
* `P5` models `src/unnamed/part_005`: `preloadAndValidateImage` with its
  bounded retry budget, `showBrowserNotification` (truncation, image
  resolution) and the push delivery pipeline.

JavaScript strings are modelled as `String`, absent-or-string fields as
`Option String` (`none` = `undefined`), and JS truthiness of such a field
by `truthy`.  `Date.now()` instants are `Int`.
-/

/-- JS truthiness of an optional string: `undefined`, missing and `""`
are falsy, every other string is truthy. -/
def truthy : Option String → Bool
  | none => false
  | some s => s != ""

/-- JS `a || b` on optional strings: yields `a` when `a` is truthy,
otherwise `b` (which may itself be falsy). -/
def jsOr (a b : Option String) : Option String :=
  if truthy a then a else b

/-- JS `s.substring(0, n)` (we count characters where JS counts UTF-16
units; the sources only compare against plain length limits). -/
def jsSubstring (s : String) (n : Nat) : String :=
  ⟨s.data.take n⟩

/-- JS `s.startsWith(pre)`, computed on the character lists. -/
def jsStartsWith (s pre : String) : Bool :=
  pre.data.isPrefixOf s.data

namespace ESW

/-! ## src/unnamed/part_004 — enhanced Socket.IO service worker -/

/-- `NOTIFICATION_TTL = 60000` (60 seconds, part_004 line 238). -/
def NOTIFICATION_TTL : Int := 60000

/-- `MAX_RECONNECT_ATTEMPTS = 5` (part_004 line 232). -/
def MAX_RECONNECT_ATTEMPTS : Nat := 5

/-- The `notificationCache : Map` of part_004, as an association list
from notification identity to the stored `Date.now()` timestamp. -/
abbrev Cache := List (String × Int)

/-- `notificationCache.has(k)` / `notificationCache.get(k)` combined. -/
def cacheGet : Cache → String → Option Int
  | [], _ => none
  | (k', v) :: rest, k => if k' == k then some v else cacheGet rest k

/-- `notificationCache.set(k, v)`: replace the binding if present,
otherwise add one. -/
def cacheSet : Cache → String → Int → Cache
  | [], k, v => [(k, v)]
  | (k', v') :: rest, k, v =>
      if k' == k then (k, v) :: rest else (k', v') :: cacheSet rest k v

/-- The fields of an inbound notification event that the dedup logic
reads (`data.id`, `data.title`, `data.message`). -/
structure NotifData where
  id : Option String := none
  title : String := ""
  message : String := ""
deriving DecidableEq

/-- part_004 line 569: `const notificationId = data.id ||
\`${data.title}_${data.message}\`;` — the source id when truthy,
otherwise the string derived from the (title, message) pair. -/
def derivedId (d : NotifData) : String :=
  match d.id with
  | some s => if s == "" then d.title ++ "_" ++ d.message else s
  | none => d.title ++ "_" ++ d.message

/-- `isDuplicateNotification` (part_004 lines 568-581).  Returns the
boolean answer together with the cache after the call: a live entry
answers `true` and leaves the cache alone; otherwise the function itself
stores `now` under the identity and answers `false`. -/
def isDuplicateNotification (c : Cache) (d : NotifData) (now : Int) :
    Bool × Cache :=
  let notificationId := derivedId d
  match cacheGet c notificationId with
  | some lastSeen =>
      if now - lastSeen < NOTIFICATION_TTL then (true, c)
      else (false, cacheSet c notificationId now)
  | none => (false, cacheSet c notificationId now)

/-- Whether the cache holds a live (unexpired) entry for a key. -/
def isLive (c : Cache) (k : String) (now : Int) : Bool :=
  match cacheGet c k with
  | some t => decide (now - t < NOTIFICATION_TTL)
  | none => false

/-- `cleanupNotificationCache` (part_004 lines 278-285): drop every
entry with `now - timestamp > NOTIFICATION_TTL`. -/
def cleanupNotificationCache (c : Cache) (now : Int) : Cache :=
  c.filter (fun e => decide (now - e.2 ≤ NOTIFICATION_TTL))

/-- Observable effects of handling one notification event. -/
inductive Effect where
  | broadcast (d : NotifData)
  | display (d : NotifData)
deriving DecidableEq

/-- `handleNotificationEvent` (part_004 lines 548-563): a duplicate is
dropped silently, otherwise the record is broadcast to clients and a
browser notification is shown. -/
def handleNotificationEvent (c : Cache) (d : NotifData) (now : Int) :
    Cache × List Effect :=
  let r := isDuplicateNotification c d now
  if r.1 then (r.2, [])
  else (r.2, [Effect.broadcast d, Effect.display d])

/-- `socket.onclose` reconnect decision (part_004 lines 431-440): given
the close code and the current `reconnectAttempts`, returns
`some (newAttempts, delayMs)` when a reconnect is scheduled and `none`
otherwise.  `delay = Math.min(1000 * Math.pow(2, reconnectAttempts),
30000)` is computed after the increment. -/
def socketOnClose (code : Nat) (reconnectAttempts : Nat) :
    Option (Nat × Nat) :=
  if code ≠ 1000 ∧ code ≠ 1001 ∧ reconnectAttempts < MAX_RECONNECT_ATTEMPTS
  then
    let r := reconnectAttempts + 1
    some (r, min (1000 * 2 ^ r) 30000)
  else none

end ESW

namespace WS

/-! ## src/sw.js and src/zuzzuu-sw.js — plain WebSocket workers

The two files share the exact `connectWebSocket` guard structure
(sw.js lines 50-100, zuzzuu-sw.js lines 251-285).  Physical sockets are
given numeric ids; `connectingSockets` and `openSockets` track every
socket created by the worker whose `readyState` is CONNECTING
respectively OPEN, so that "two connections simultaneously open" is a
statement about `openSockets`. -/

/-- `CONNECTION_COOLDOWN = 5000` (sw.js line 11, zuzzuu-sw.js line 11). -/
def CONNECTION_COOLDOWN : Int := 5000

/-- The worker-global connection state (`socket`, `isConnected`,
`subscriberId`, `connectionInProgress`, `lastConnectionAttempt`)
together with the physical socket bookkeeping. -/
structure State where
  socket : Option Nat := none
  isConnected : Bool := false
  subscriberId : Option String := none
  connectionInProgress : Bool := false
  lastConnectionAttempt : Int := 0
  nextSocketId : Nat := 0
  connectingSockets : List Nat := []
  openSockets : List Nat := []
deriving DecidableEq

/-- What one `connectWebSocket` call did. -/
inductive Outcome where
  /-- rejected by the `connectionInProgress` reentrancy guard -/
  | ignoredInProgress
  /-- rejected by the `isConnected && subscriberId === subId` guard -/
  | ignoredAlreadyConnected
  /-- rejected by the 5 s cooldown guard -/
  | ignoredCooldown
  /-- accepted: a new `WebSocket` was constructed; `closedExisting`
  records whether `socket.close()` was called on the previous socket -/
  | attempted (closedExisting : Bool)
deriving DecidableEq

/-- `socket && socket.readyState === WebSocket.OPEN`. -/
def socketIsOpen (s : State) : Bool :=
  match s.socket with
  | some k => s.openSockets.contains k
  | none => false

/-- `connectWebSocket(subId, wsUrl)` (zuzzuu-sw.js lines 251-285,
identically guarded in sw.js lines 50-100).  Note the source assigns
`subscriberId = subId` (line 273) before evaluating the close-guard
`socket.readyState === OPEN && subscriberId !== subId` (line 276); the
embedding keeps that order. -/
def connectWebSocket (s : State) (now : Int) (subId : String) :
    State × Outcome :=
  if s.connectionInProgress then (s, .ignoredInProgress)
  else if s.isConnected && s.subscriberId == some subId then
    (s, .ignoredAlreadyConnected)
  else if now - s.lastConnectionAttempt < CONNECTION_COOLDOWN then
    (s, .ignoredCooldown)
  else
    let s1 : State :=
      { s with lastConnectionAttempt := now, connectionInProgress := true,
               subscriberId := some subId }
    let shouldClose := socketIsOpen s1 && s1.subscriberId != some subId
    let s2 : State :=
      if shouldClose then
        { s1 with openSockets :=
            match s1.socket with
            | some k => s1.openSockets.erase k
            | none => s1.openSockets }
      else s1
    let k := s2.nextSocketId
    ({ s2 with socket := some k, nextSocketId := k + 1,
               connectingSockets := k :: s2.connectingSockets },
     .attempted shouldClose)

/-- `socket.onopen`: the current socket finishes opening;
`isConnected = true`, `connectionInProgress = false`. -/
def onOpen (s : State) : State :=
  match s.socket with
  | some k =>
      { s with isConnected := true, connectionInProgress := false,
               openSockets := k :: s.openSockets,
               connectingSockets := s.connectingSockets.erase k }
  | none => s

/-- `socket.onclose` handler state update for physical socket `k`:
`isConnected = false`, `connectionInProgress = false`, the socket is no
longer open. -/
def onClose (s : State) (k : Nat) : State :=
  { s with isConnected := false, connectionInProgress := false,
           openSockets := s.openSockets.erase k }

/-- `socket.onerror`: `isConnected = false`,
`connectionInProgress = false`. -/
def onError (s : State) : State :=
  { s with isConnected := false, connectionInProgress := false }

/-- sw.js line 174: reconnect only when
`event.code !== 1000 && event.code !== 1001 && event.code < 4000`
(the delay there is a fixed 10000 ms and no attempt counter exists). -/
def oncloseShouldReconnect (code : Nat) : Bool :=
  code != 1000 && code != 1001 && decide (code < 4000)

end WS

namespace ZSW

/-! ## src/zuzzuu-sw.js — push payload normalizer and client fan-out -/

/-- The canonical record the push handler builds
(zuzzuu-sw.js lines 595-651). -/
structure NotifRec where
  id : Option String := none
  title : Option String := none
  message : Option String := none
  url : Option String := none
  icon : Option String := none
  image : Option String := none
  tag : Option String := none
deriving DecidableEq

/-- The `parsedData.notification` envelope of a Firebase-style push. -/
structure FCMNotif where
  title : Option String := none
  body : Option String := none
  icon : Option String := none
  image : Option String := none
deriving DecidableEq

/-- The `parsedData.data` object of a Firebase-style push; its own keys
are spread over the built record (`...parsedData.data`), so a present
key — even an empty string — overrides the computed field. -/
structure FCMData where
  id : Option String := none
  title : Option String := none
  message : Option String := none
  url : Option String := none
  click_action : Option String := none
  icon : Option String := none
  image : Option String := none
  tag : Option String := none
deriving DecidableEq

/-- The shapes a raw push payload can take after the `event.data` /
`JSON.parse` case split of the handler (lines 598-643): absent payload,
payload text that fails to parse as JSON, a Firebase envelope (truthy
`parsedData.notification`), or a flat custom object. -/
inductive PushPayload where
  | noData
  | rawText (raw : String)
  | fcm (notification : FCMNotif) (dataF : Option FCMData)
  | custom (fields : NotifRec)
deriving DecidableEq

/-- `{...computed, ...parsedData.data}`: every key present on `d`
overrides the computed record. -/
def spreadData (base : NotifRec) (d : FCMData) : NotifRec :=
  { id := match d.id with | some v => some v | none => base.id,
    title := match d.title with | some v => some v | none => base.title,
    message := match d.message with | some v => some v | none => base.message,
    url := match d.url with | some v => some v | none => base.url,
    icon := match d.icon with | some v => some v | none => base.icon,
    image := match d.image with | some v => some v | none => base.image,
    tag := match d.tag with | some v => some v | none => base.tag }

/-- The `notificationData` built before the final required-fields guard
(zuzzuu-sw.js lines 598-643). -/
def parsePush (p : PushPayload) : NotifRec :=
  match p with
  | .noData =>
      { title := some "Zuzzuu Notification",
        message := some "You have a new notification from Zuzzuu" }
  | .rawText raw =>
      { title := some "Zuzzuu Notification",
        message := jsOr (some raw) (some "You have a new notification") }
  | .fcm n d =>
      let base : NotifRec :=
        { title := jsOr n.title (some "Zuzzuu Notification"),
          message := jsOr n.body (some "You have a new notification"),
          url := jsOr (match d with | some dd => dd.url | none => none)
                      (match d with | some dd => dd.click_action | none => none),
          icon := jsOr n.icon (match d with | some dd => dd.icon | none => none),
          image := jsOr n.image (match d with | some dd => dd.image | none => none),
          tag := jsOr (match d with | some dd => dd.tag | none => none)
                      (some "zuzzuu-notification") }
      match d with
      | some dd => spreadData base dd
      | none => base
  | .custom f => f

/-- The generic record substituted when both title and message resolve
empty (lines 646-651). -/
def defaultRecord : NotifRec :=
  { title := some "Zuzzuu Notification",
    message := some "You have a new notification" }

/-- The full normalization: parse, then
`if (!notificationData.title && !notificationData.message)` substitute
the generic default record. -/
def normalizePush (p : PushPayload) : NotifRec :=
  let nd := parsePush p
  if !truthy nd.title && !truthy nd.message then defaultRecord else nd

/-- `checkAndNotifyClients` (zuzzuu-sw.js lines 685-719).  A client is
modelled by whether its `postMessage` succeeds; the function counts
successes and returns `successCount > 0`, or `false` when no clients
exist; every per-client error is caught. -/
def checkAndNotifyClients (clients : List Bool) : Bool :=
  if clients.length > 0 then
    let successCount := (clients.filter (fun accepted => accepted)).length
    decide (successCount > 0)
  else false

end ZSW

namespace P5

/-! ## src/unnamed/part_005 — image validation and push display -/

/-- Nested `template` object (`template.image_url`, `template.image`). -/
structure Template where
  image_url : Option String := none
  image : Option String := none
  logo_url : Option String := none
deriving DecidableEq

/-- Nested `data` object (`data.image_url`, `data.image`). -/
structure DataField where
  image_url : Option String := none
  image : Option String := none
deriving DecidableEq

/-- The notification object `showBrowserNotification` receives
(part_005 lines 731-832); only string-or-absent fields it reads. -/
structure PNotif where
  id : Option String := none
  title : Option String := none
  name : Option String := none
  message : Option String := none
  body : Option String := none
  text : Option String := none
  image_url : Option String := none
  image : Option String := none
  logo_url : Option String := none
  icon : Option String := none
  badge : Option String := none
  tag : Option String := none
  url : Option String := none
  template : Option Template := none
  dataF : Option DataField := none
deriving DecidableEq

/-- Outcome of the network probes of one validation attempt:
`headOk ct` — the HEAD fetch resolved with `response.ok` and declared
content type `ct`; `headNotOkGetOk ct` — HEAD resolved not-ok and the
follow-up GET resolved ok with content type `ct`; `headNotOkGetNotOk` —
both resolved not-ok; `headNotOkGetThrow cors` — HEAD not-ok and GET
threw (`cors` = the error looked like a cross-origin `TypeError`);
`headThrow cors` — the HEAD fetch itself threw. -/
inductive FetchOutcome where
  | headOk (contentType : Option String)
  | headNotOkGetOk (contentType : Option String)
  | headNotOkGetNotOk
  | headNotOkGetThrow (cors : Bool)
  | headThrow (cors : Bool)
deriving DecidableEq

/-- `contentType && !contentType.startsWith('image/')` — the check that
makes a resolved response count as "not an image" (a missing
content-type passes). -/
def contentTypeFails (ct : Option String) : Bool :=
  truthy ct && !(jsStartsWith (ct.getD "") "image/")

/-- `preloadAndValidateImage(imageUrl, retryCount, maxRetries)`
(part_005 lines 371-503), with the network modelled by `env : attempt
index → FetchOutcome`.  `retriesLeft = maxRetries - retryCount` counts
the retries still allowed (`retryCount < maxRetries` in the source);
the initial call has `retryCount = 0, maxRetries = 3`, i.e.
`retriesLeft = 3`.  Resolved-but-failing responses retry and give up
with `null`; thrown errors retry and give up with `null` unless they
look like CORS, in which case the original URL is returned
optimistically; a response that is ok and not provably a non-image
returns the URL. -/
def preloadAndValidateImage (env : Nat → FetchOutcome) (imageUrl : String) :
    (attempt : Nat) → (retriesLeft : Nat) → Option String
  | attempt, 0 =>
    if imageUrl == "" then none
    else if !(jsStartsWith imageUrl "http://")
            && !(jsStartsWith imageUrl "https://") then none
    else
      match env attempt with
      | .headOk ct =>
          if contentTypeFails ct then none else some imageUrl
      | .headNotOkGetOk ct =>
          if contentTypeFails ct then none else some imageUrl
      | .headNotOkGetNotOk => none
      | .headNotOkGetThrow cors =>
          if cors then some imageUrl else none
      | .headThrow cors =>
          if cors then some imageUrl else none
  | attempt, n + 1 =>
    if imageUrl == "" then none
    else if !(jsStartsWith imageUrl "http://")
            && !(jsStartsWith imageUrl "https://") then none
    else
      match env attempt with
      | .headOk ct =>
          if contentTypeFails ct then
            preloadAndValidateImage env imageUrl (attempt + 1) n
          else some imageUrl
      | .headNotOkGetOk ct =>
          if contentTypeFails ct then
            preloadAndValidateImage env imageUrl (attempt + 1) n
          else some imageUrl
      | .headNotOkGetNotOk =>
          preloadAndValidateImage env imageUrl (attempt + 1) n
      | .headNotOkGetThrow _ =>
          preloadAndValidateImage env imageUrl (attempt + 1) n
      | .headThrow _ =>
          preloadAndValidateImage env imageUrl (attempt + 1) n

/-- An attempt outcome that definitively fails validation (as opposed
to succeeding or ending in the optimistic CORS fallback). -/
def definitiveFail : FetchOutcome → Bool
  | .headOk ct => contentTypeFails ct
  | .headNotOkGetOk ct => contentTypeFails ct
  | .headNotOkGetNotOk => true
  | .headNotOkGetThrow cors => !cors
  | .headThrow cors => !cors

/-- `title = notificationData.title || notificationData.name ||
'Zuzzuu Notification'` (line 736); always a truthy string. -/
def resolveTitle (d : PNotif) : String :=
  (jsOr (jsOr d.title d.name) (some "Zuzzuu Notification")).getD ""

/-- `body = notificationData.message || notificationData.body ||
notificationData.text || 'You have a new notification'` (line 739). -/
def resolveBody (d : PNotif) : String :=
  (jsOr (jsOr (jsOr d.message d.body) d.text)
    (some "You have a new notification")).getD ""

/-- `if (title.length > 100) title = title.substring(0, 97) + '...'`
(line 742). -/
def truncTitle (t : String) : String :=
  if t.length > 100 then jsSubstring t 97 ++ "..." else t

/-- `if (body.length > 200) body = body.substring(0, 197) + '...'`
(line 743). -/
def truncBody (b : String) : String :=
  if b.length > 200 then jsSubstring b 197 ++ "..." else b

/-- The six-way image URL resolution (lines 746-752):
`image_url || image || template.image_url || template.image ||
data.image_url || data.image || undefined`. -/
def resolveImageUrl (d : PNotif) : Option String :=
  jsOr (jsOr (jsOr (jsOr (jsOr d.image_url d.image)
    (match d.template with | some t => t.image_url | none => none))
    (match d.template with | some t => t.image | none => none))
    (match d.dataF with | some x => x.image_url | none => none))
    (jsOr (match d.dataF with | some x => x.image | none => none) none)

/-- The displayed surface of the shown notification that the claims
speak about (title, body, optional image). -/
structure Shown where
  title : String
  body : String
  image : Option String
deriving DecidableEq

/-- `showBrowserNotification` (part_005 lines 731-832): resolve and
truncate title and body, resolve the candidate image URL, validate it
when truthy (`maxRetries = 3`), and show the notification with
`image: validatedImageUrl`. -/
def showBrowserNotification (env : Nat → FetchOutcome) (d : PNotif) :
    Shown :=
  let title := truncTitle (resolveTitle d)
  let body := truncBody (resolveBody d)
  let imageUrl := resolveImageUrl d
  let validatedImageUrl :=
    if truthy imageUrl then
      preloadAndValidateImage env (imageUrl.getD "") 0 3
    else none
  { title := title, body := body, image := validatedImageUrl }

/-- `checkAndNotifyClients` (part_005 lines 688-715): forwards to every
client and returns `true` when at least one client window exists. -/
def checkAndNotifyClients (clients : List Bool) : Bool :=
  if clients.length > 0 then true else false

/-- The tail of `handlePushNotificationWithDelay` (lines 665-672): the
display request and the client broadcast are issued independently for
the same record. -/
def handlePushDeliver (env : Nat → FetchOutcome) (d : PNotif)
    (clients : List Bool) : Shown × Bool :=
  (showBrowserNotification env d, checkAndNotifyClients clients)

end P5

/-! ## Helper lemmas -/

theorem cacheGet_cacheSet_self (c : ESW.Cache) (k : String) (v : Int) :
    ESW.cacheGet (ESW.cacheSet c k v) k = some v := by
  induction c with
  | nil => simp [ESW.cacheSet, ESW.cacheGet]
  | cons e rest ih =>
    obtain ⟨k', v'⟩ := e
    by_cases h : k' == k
    · simp [ESW.cacheSet, h, ESW.cacheGet]
    · simp [ESW.cacheSet, h, ESW.cacheGet, ih]

theorem isDuplicateNotification_live (c : ESW.Cache) (d : ESW.NotifData)
    (now : Int) (h : ESW.isLive c (ESW.derivedId d) now = true) :
    ESW.isDuplicateNotification c d now = (true, c) := by
  unfold ESW.isLive at h
  unfold ESW.isDuplicateNotification
  cases hg : ESW.cacheGet c (ESW.derivedId d) with
  | none => rw [hg] at h; exact absurd h (by simp)
  | some t =>
      rw [hg] at h
      simp only [decide_eq_true_eq] at h
      simp [hg, h]

theorem isDuplicateNotification_not_live (c : ESW.Cache) (d : ESW.NotifData)
    (now : Int) (h : ESW.isLive c (ESW.derivedId d) now = false) :
    ESW.isDuplicateNotification c d now =
      (false, ESW.cacheSet c (ESW.derivedId d) now) := by
  unfold ESW.isLive at h
  unfold ESW.isDuplicateNotification
  cases hg : ESW.cacheGet c (ESW.derivedId d) with
  | none => simp [hg]
  | some t =>
      rw [hg] at h
      simp only [decide_eq_false_iff_not] at h
      simp [hg, h]

theorem cacheGet_foldl_isDup (d : ESW.NotifData) (t0 : Int) :
    ∀ (dups : List Int) (c : ESW.Cache),
      ESW.cacheGet c (ESW.derivedId d) = some t0 →
      (∀ ti ∈ dups, ti - t0 < ESW.NOTIFICATION_TTL) →
      ESW.cacheGet
        (dups.foldl (fun acc ti => (ESW.isDuplicateNotification acc d ti).2) c)
        (ESW.derivedId d) = some t0 := by
  intro dups
  induction dups with
  | nil => intro c h _; simpa using h
  | cons ti rest ih =>
      intro c h hall
      have hti : ti - t0 < ESW.NOTIFICATION_TTL := hall ti (by simp)
      have hlive : ESW.isLive c (ESW.derivedId d) ti = true := by
        unfold ESW.isLive; rw [h]; simpa using hti
      have hstep := isDuplicateNotification_live c d ti hlive
      simp only [List.foldl_cons, hstep]
      exact ih c h (fun x hx => hall x (by simp [hx]))

theorem isDup_fst_iff (c : ESW.Cache) (d : ESW.NotifData) (t t0 : Int)
    (hg : ESW.cacheGet c (ESW.derivedId d) = some t0) :
    (ESW.isDuplicateNotification c d t).1 = true ↔
      t - t0 < ESW.NOTIFICATION_TTL := by
  simp only [ESW.isDuplicateNotification, hg]
  by_cases h : t - t0 < ESW.NOTIFICATION_TTL <;> simp [h]

theorem cacheGet_cleanup (k : String) (t0 now : Int) :
    ∀ c : ESW.Cache, ESW.cacheGet c k = some t0 →
      now - t0 ≤ ESW.NOTIFICATION_TTL →
      ESW.cacheGet (ESW.cleanupNotificationCache c now) k = some t0 := by
  intro c
  induction c with
  | nil => intro h _; simp [ESW.cacheGet] at h
  | cons e rest ih =>
      intro h hkeep
      obtain ⟨k', v'⟩ := e
      by_cases hk : k' == k
      · have hv : v' = t0 := by simpa [ESW.cacheGet, hk] using h
        subst hv
        simp [ESW.cleanupNotificationCache, List.filter, hkeep, ESW.cacheGet, hk]
      · have hrest : ESW.cacheGet rest k = some t0 := by
          simpa [ESW.cacheGet, hk] using h
        by_cases hf : now - v' ≤ ESW.NOTIFICATION_TTL
        · simpa [ESW.cleanupNotificationCache, List.filter, hf, ESW.cacheGet, hk]
            using ih hrest hkeep
        · simpa [ESW.cleanupNotificationCache, List.filter, hf]
            using ih hrest hkeep

/-! ## Claims about the deduplication cache (part_004) -/

/-- C5 counterexample: the claim says the dedup query leaves the cache
unchanged for every cache state and identity; on the empty cache the
query itself records the identity. -/
theorem c5_counterexample :
    (ESW.isDuplicateNotification []
      { id := some "n1", title := "Hi", message := "there" } 0).2 ≠ [] := by
  decide

/-- C5 (amended): the dedup check is check-and-remember in one
operation — when it reports a duplicate it leaves the cache unchanged,
and when it finds no live entry it itself records the identity with the
current timestamp before returning false. -/
theorem c5_check_and_remember (c : ESW.Cache) (d : ESW.NotifData) (now : Int) :
    (ESW.isDuplicateNotification c d now).2 =
      if (ESW.isDuplicateNotification c d now).1 then c
      else ESW.cacheSet c (ESW.derivedId d) now := by
  unfold ESW.isDuplicateNotification
  cases hg : ESW.cacheGet c (ESW.derivedId d) with
  | none => simp [hg]
  | some t => by_cases h : now - t < ESW.NOTIFICATION_TTL <;> simp [hg, h]

/-- C2: idempotent delivery — two inbound notification events with the
same derived identity arriving within the 60 s TTL window produce
exactly one broadcast-and-display pair: the first (fresh) arrival is
broadcast and displayed, the second produces no effects at all. -/
theorem c2_idempotent_delivery (c : ESW.Cache) (d1 d2 : ESW.NotifData)
    (t1 t2 : Int)
    (hid : ESW.derivedId d1 = ESW.derivedId d2)
    (hfresh : ESW.isLive c (ESW.derivedId d1) t1 = false)
    (hwin : t2 - t1 < ESW.NOTIFICATION_TTL) :
    (ESW.handleNotificationEvent c d1 t1).2 =
      [ESW.Effect.broadcast d1, ESW.Effect.display d1] ∧
    (ESW.handleNotificationEvent
      (ESW.handleNotificationEvent c d1 t1).1 d2 t2).2 = [] := by
  have h1 := isDuplicateNotification_not_live c d1 t1 hfresh
  refine ⟨by simp [ESW.handleNotificationEvent, h1], ?_⟩
  have hc1 : (ESW.handleNotificationEvent c d1 t1).1 =
      ESW.cacheSet c (ESW.derivedId d1) t1 := by
    simp [ESW.handleNotificationEvent, h1]
  rw [hc1]
  have hlive2 : ESW.isLive (ESW.cacheSet c (ESW.derivedId d1) t1)
      (ESW.derivedId d2) t2 = true := by
    unfold ESW.isLive
    rw [← hid, cacheGet_cacheSet_self]
    simpa using hwin
  have h2 := isDuplicateNotification_live _ d2 t2 hlive2
  simp [ESW.handleNotificationEvent, h2]

/-- C2 witness at Scenario B's data: the same `n1` record delivered at
`t = 0` and again at `t = 1000`. -/
theorem c2_witness :
    (ESW.handleNotificationEvent []
      { id := some "n1", title := "Hi", message := "there" } 0).2 =
      [ESW.Effect.broadcast { id := some "n1", title := "Hi", message := "there" },
       ESW.Effect.display { id := some "n1", title := "Hi", message := "there" }] ∧
    (ESW.handleNotificationEvent
      (ESW.handleNotificationEvent []
        { id := some "n1", title := "Hi", message := "there" } 0).1
      { id := some "n1", title := "Hi", message := "there" } 1000).2 = [] :=
  c2_idempotent_delivery [] _ _ 0 1000 rfl (by decide) (by decide)

/-- C10: the stored timestamp of an identity is written only when the
lookup finds no live entry; suppressed duplicates never refresh it, so
after a delivery at `t0` the identity stays anchored at `t0` through any
number of suppressed arrivals, becomes new again exactly when
`t - t0 ≥ TTL`, and the periodic cleanup never evicts the anchored
entry before the TTL has elapsed. -/
theorem c10_ttl_anchor (d : ESW.NotifData) (c : ESW.Cache) (t0 : Int)
    (dups : List Int) (t : Int)
    (h0 : ESW.cacheGet c (ESW.derivedId d) = some t0)
    (hdups : ∀ ti ∈ dups, ti - t0 < ESW.NOTIFICATION_TTL) :
    ESW.cacheGet
      (dups.foldl (fun acc ti => (ESW.isDuplicateNotification acc d ti).2) c)
      (ESW.derivedId d) = some t0 ∧
    ((ESW.isDuplicateNotification
        (dups.foldl (fun acc ti => (ESW.isDuplicateNotification acc d ti).2) c)
        d t).1 = true ↔ t - t0 < ESW.NOTIFICATION_TTL) ∧
    (∀ (c' : ESW.Cache) (d' : ESW.NotifData) (now' : Int),
      ESW.isLive c' (ESW.derivedId d') now' = true →
      (ESW.isDuplicateNotification c' d' now').2 = c') ∧
    (∀ tc : Int, tc - t0 ≤ ESW.NOTIFICATION_TTL →
      ESW.cacheGet
        (ESW.cleanupNotificationCache
          (dups.foldl (fun acc ti => (ESW.isDuplicateNotification acc d ti).2) c)
          tc)
        (ESW.derivedId d) = some t0) := by
  have hfin := cacheGet_foldl_isDup d t0 dups c h0 hdups
  refine ⟨hfin, isDup_fst_iff _ d t t0 hfin, ?_, ?_⟩
  · intro c' d' now' hlive
    rw [isDuplicateNotification_live c' d' now' hlive]
  · intro tc hc
    exact cacheGet_cleanup (ESW.derivedId d) t0 tc _ hfin hc

/-- C10 witness: identity `a_b` delivered at `t0 = 0`, suppressed
duplicates at 1000 and 50000, queried again at 70000 (past the TTL). -/
theorem c10_witness :
    ESW.cacheGet
      ([(1000 : Int), 50000].foldl
        (fun acc ti =>
          (ESW.isDuplicateNotification acc { title := "a", message := "b" } ti).2)
        [("a_b", 0)])
      (ESW.derivedId { title := "a", message := "b" }) = some 0 ∧
    ((ESW.isDuplicateNotification
        ([(1000 : Int), 50000].foldl
          (fun acc ti =>
            (ESW.isDuplicateNotification acc { title := "a", message := "b" } ti).2)
          [("a_b", 0)])
        { title := "a", message := "b" } 70000).1 = true ↔
      (70000 : Int) - 0 < ESW.NOTIFICATION_TTL) :=
  ⟨(c10_ttl_anchor { title := "a", message := "b" } [("a_b", 0)] 0
      [1000, 50000] 70000 (by decide) (by decide)).1,
   (c10_ttl_anchor { title := "a", message := "b" } [("a_b", 0)] 0
      [1000, 50000] 70000 (by decide) (by decide)).2.1⟩

/-! ## Claims about the connection manager -/

/-- C3 counterexample: close code 4001 is the workers' own
authentication-failure code, yet the Socket.IO worker's close handler
schedules a reconnect for it (after 2000 ms), so "authentication
rejection suppresses reconnection" is false for part_004. -/
theorem c3_counterexample : ESW.socketOnClose 4001 0 = some (1, 2000) := by
  decide

/-- C3 (amended): in the Socket.IO worker a reconnect is scheduled for
every close code other than 1000/1001 — including the auth-rejection
codes 4001-4003 — while fewer than 5 retries have been scheduled; the
counter increments once per scheduled retry and never exceeds 5, and the
delay is `min(1000 * 2 ^ attempt, 30000)` computed after the increment
(2 s for the first retry, capped at 30 s).  The plain-WebSocket worker
sw.js separately suppresses reconnection for codes 1000/1001 and for all
codes ≥ 4000 (its delay is a fixed 10 s with no attempt bound). -/
theorem c3_reconnect_policy (code att : Nat) :
    (ESW.socketOnClose code att = none ↔
      (code = 1000 ∨ code = 1001 ∨ ESW.MAX_RECONNECT_ATTEMPTS ≤ att)) ∧
    (code ≠ 1000 → code ≠ 1001 → att < ESW.MAX_RECONNECT_ATTEMPTS →
      ESW.socketOnClose code att =
        some (att + 1, min (1000 * 2 ^ (att + 1)) 30000) ∧
      att + 1 ≤ ESW.MAX_RECONNECT_ATTEMPTS ∧
      min (1000 * 2 ^ (att + 1)) 30000 ≤ 30000) ∧
    (WS.oncloseShouldReconnect code = true ↔
      (code ≠ 1000 ∧ code ≠ 1001 ∧ code < 4000)) := by
  refine ⟨?_, ?_, ?_⟩
  · unfold ESW.socketOnClose
    split
    · next h =>
        exact iff_of_false (by simp)
          (by push_neg; exact ⟨h.1, h.2.1, h.2.2⟩)
    · next h =>
        refine iff_of_true rfl ?_
        by_cases h1 : code = 1000
        · exact Or.inl h1
        · by_cases h2 : code = 1001
          · exact Or.inr (Or.inl h2)
          · refine Or.inr (Or.inr ?_)
            by_cases h3 : att < ESW.MAX_RECONNECT_ATTEMPTS
            · exact absurd ⟨h1, h2, h3⟩ h
            · omega
  · intro h1 h2 h3
    unfold ESW.socketOnClose
    rw [if_pos ⟨h1, h2, h3⟩]
    exact ⟨rfl, by omega, min_le_right _ _⟩
  · unfold WS.oncloseShouldReconnect
    simp [Bool.and_eq_true, bne_iff_ne, decide_eq_true_eq, and_assoc]

/-- C3 witness: code 1006 (abnormal closure) with no prior retries
schedules the first retry with a 2000 ms delay. -/
theorem c3_witness :
    ESW.socketOnClose 1006 0 = some (1, min (1000 * 2 ^ (0 + 1)) 30000) ∧
    0 + 1 ≤ ESW.MAX_RECONNECT_ATTEMPTS ∧
    min (1000 * 2 ^ (0 + 1)) 30000 ≤ 30000 :=
  (c3_reconnect_policy 1006 0).2.1 (by decide) (by decide) (by decide)

/-- C1: identity-scoping failure of `connectWebSocket`.  Evaluating the
embedded code on the failing trace — connect to subscriber A, the
transport opens, then connect to subscriber B after the cooldown — shows
that the state before the second call is `Open` for A (socket 0 open),
that the second call attempts a new connection WITHOUT closing the
existing one (the guard compares the freshly assigned `subscriberId`
against `subId`, so it can never fire), and that once the B-socket opens
both physical connections (ids 1 and 0) are open simultaneously —
contradicting the claim that the A-connection is closed first and that
two connections are never open at once. -/
theorem c1_unclosed_previous_connection :
    let s0 : WS.State := {}
    let r1 := WS.connectWebSocket s0 10000 "A"
    let s2 := WS.onOpen r1.1
    let r2 := WS.connectWebSocket s2 20000 "B"
    let s4 := WS.onOpen r2.1
    s2.isConnected = true ∧ s2.subscriberId = some "A" ∧
    s2.openSockets = [0] ∧
    r2.2 = WS.Outcome.attempted false ∧
    s4.openSockets = [1, 0] ∧ s4.openSockets.length = 2 := by
  decide

/-- C4: cooldown enforcement.  (1) Any `connectWebSocket` call issued
within 5 s of the recorded `lastConnectionAttempt` — whatever guard
rejects it — changes nothing and attempts no transport open; (2) an
accepted call attempts the transport open and stamps
`lastConnectionAttempt := now`, opening the window for (1); (3) the
transport callbacks never touch `lastConnectionAttempt`, so the window
set by the first call governs every later call in the sequence. -/
theorem c4_cooldown_enforcement (s : WS.State) (now : Int) (subId : String) :
    (now - s.lastConnectionAttempt < WS.CONNECTION_COOLDOWN →
      (WS.connectWebSocket s now subId).1 = s ∧
      ∀ b, (WS.connectWebSocket s now subId).2 ≠ WS.Outcome.attempted b) ∧
    (s.connectionInProgress = false →
      (s.isConnected && s.subscriberId == some subId) = false →
      WS.CONNECTION_COOLDOWN ≤ now - s.lastConnectionAttempt →
      (∃ b, (WS.connectWebSocket s now subId).2 = WS.Outcome.attempted b) ∧
      (WS.connectWebSocket s now subId).1.lastConnectionAttempt = now) ∧
    (WS.onOpen s).lastConnectionAttempt = s.lastConnectionAttempt ∧
    (∀ k, (WS.onClose s k).lastConnectionAttempt = s.lastConnectionAttempt) ∧
    (WS.onError s).lastConnectionAttempt = s.lastConnectionAttempt := by
  refine ⟨?_, ?_, ?_, fun k => rfl, rfl⟩
  · intro h
    unfold WS.connectWebSocket
    by_cases h1 : s.connectionInProgress
    · simp [h1]
    · by_cases h2 : (s.isConnected && s.subscriberId == some subId) = true
      · simp [h1, h2]
      · simp [h1, h2, h]
  · intro h1 h2 h3
    unfold WS.connectWebSocket
    simp only [h1, h2, Bool.false_eq_true, if_false,
      if_neg (not_lt.mpr h3)]
    refine ⟨⟨_, rfl⟩, ?_⟩
    split <;> rfl
  · unfold WS.onOpen
    cases hs : s.socket <;> simp

/-- C4 witness: at the initial state a call at `now = 1000` falls inside
the cooldown window (no attempt, state unchanged), while a call at
`now = 10000` is accepted and stamps the attempt time. -/
theorem c4_witness :
    ((WS.connectWebSocket {} 1000 "A").1 = ({} : WS.State) ∧
      ∀ b, (WS.connectWebSocket {} 1000 "A").2 ≠ WS.Outcome.attempted b) ∧
    ((∃ b, (WS.connectWebSocket {} 10000 "A").2 = WS.Outcome.attempted b) ∧
      (WS.connectWebSocket {} 10000 "A").1.lastConnectionAttempt = 10000) :=
  ⟨(c4_cooldown_enforcement {} 1000 "A").1 (by decide),
   (c4_cooldown_enforcement {} 10000 "A").2.1 rfl (by decide) (by decide)⟩

/-! ## Claims about the push normalizer and fan-out (zuzzuu-sw.js) -/

/-- C6: normalization totality — for every push payload shape (absent,
non-JSON text, Firebase envelope, flat custom object) the normalized
record has a truthy title or a truthy message, and whenever both resolve
falsy the generic default record is substituted. -/
theorem c6_normalization_totality (p : ZSW.PushPayload) :
    (truthy (ZSW.normalizePush p).title
      || truthy (ZSW.normalizePush p).message) = true ∧
    (truthy (ZSW.parsePush p).title = false →
      truthy (ZSW.parsePush p).message = false →
      ZSW.normalizePush p = ZSW.defaultRecord) := by
  constructor
  · unfold ZSW.normalizePush
    by_cases h : (!truthy (ZSW.parsePush p).title
        && !truthy (ZSW.parsePush p).message) = true
    · rw [if_pos h]; decide
    · rw [if_neg h]
      cases ht : truthy (ZSW.parsePush p).title <;>
        cases hm : truthy (ZSW.parsePush p).message <;>
        simp_all
  · intro h1 h2
    unfold ZSW.normalizePush
    rw [if_pos (by rw [h1, h2]; rfl)]

/-- C6 witness: a custom payload whose record has no title and no
message is replaced by the generic default record. -/
theorem c6_witness :
    (truthy (ZSW.normalizePush (ZSW.PushPayload.custom {})).title
      || truthy (ZSW.normalizePush (ZSW.PushPayload.custom {})).message) = true ∧
    ZSW.normalizePush (ZSW.PushPayload.custom {}) = ZSW.defaultRecord :=
  ⟨(c6_normalization_totality (ZSW.PushPayload.custom {})).1,
   (c6_normalization_totality (ZSW.PushPayload.custom {})).2 rfl rfl⟩

theorem filter_pos_eq_any (l : List Bool) :
    decide (0 < (l.filter (fun accepted => accepted)).length) =
      l.any (fun accepted => accepted) := by
  induction l with
  | nil => decide
  | cons a rest ih =>
      cases a
      · simpa [List.filter, List.any] using ih
      · simp [List.filter, List.any]

/-- C8: broadcast return value — `checkAndNotifyClients` returns true
exactly when at least one foreground client accepted (its `postMessage`
succeeded), and returns false, not an error, when zero clients exist. -/
theorem c8_broadcast_return (clients : List Bool) :
    ZSW.checkAndNotifyClients clients =
      clients.any (fun accepted => accepted) ∧
    (ZSW.checkAndNotifyClients clients = true ↔
      ∃ accepted ∈ clients, accepted = true) ∧
    ZSW.checkAndNotifyClients [] = false := by
  have hmain : ZSW.checkAndNotifyClients clients =
      clients.any (fun accepted => accepted) := by
    unfold ZSW.checkAndNotifyClients
    cases clients with
    | nil => decide
    | cons a rest => simpa using filter_pos_eq_any (a :: rest)
  refine ⟨hmain, ?_, rfl⟩
  rw [hmain, List.any_eq_true]

/-! ## Claims about image validation and display (part_005) -/

theorem preload_none_of_definitiveFail (env : Nat → P5.FetchOutcome)
    (url : String) (h : ∀ i, P5.definitiveFail (env i) = true) :
    ∀ (n attempt : Nat), P5.preloadAndValidateImage env url attempt n = none := by
  intro n
  induction n with
  | zero =>
      intro attempt
      have hd := h attempt
      unfold P5.preloadAndValidateImage
      by_cases hu : (url == "") = true
      · simp [hu]
      · by_cases hh : (!(jsStartsWith url "http://")
            && !(jsStartsWith url "https://")) = true
        · simp [hu, hh]
        · simp only [hu, hh, Bool.false_eq_true, if_false]
          cases henv : env attempt <;> rw [henv] at hd <;>
            unfold P5.definitiveFail at hd <;> simp_all
  | succ n ih =>
      intro attempt
      have hd := h attempt
      unfold P5.preloadAndValidateImage
      by_cases hu : (url == "") = true
      · simp [hu]
      · by_cases hh : (!(jsStartsWith url "http://")
            && !(jsStartsWith url "https://")) = true
        · simp [hu, hh]
        · simp only [hu, hh, Bool.false_eq_true, if_false]
          cases henv : env attempt <;> rw [henv] at hd <;>
            unfold P5.definitiveFail at hd <;> simp_all [ih (attempt + 1)]

/-- C7: asset fallback — when every validation attempt fails
definitively (no success and no optimistic CORS fallback), the
validator's retry budget is exhausted and it returns `null`; the shown
notification then carries no image but still has its resolved title and
body, and the client broadcast proceeds exactly as it would have with an
image. -/
theorem c7_asset_fallback (env : Nat → P5.FetchOutcome) (d : P5.PNotif)
    (clients : List Bool)
    (hfail : ∀ i, P5.definitiveFail (env i) = true) :
    P5.preloadAndValidateImage env ((P5.resolveImageUrl d).getD "") 0 3 = none ∧
    (P5.handlePushDeliver env d clients).1.image = none ∧
    (P5.handlePushDeliver env d clients).1.title =
      P5.truncTitle (P5.resolveTitle d) ∧
    (P5.handlePushDeliver env d clients).1.body =
      P5.truncBody (P5.resolveBody d) ∧
    (P5.handlePushDeliver env d clients).2 = P5.checkAndNotifyClients clients := by
  have hnone := preload_none_of_definitiveFail env
    ((P5.resolveImageUrl d).getD "") hfail
  refine ⟨hnone 3 0, ?_, rfl, rfl, rfl⟩
  show (P5.showBrowserNotification env d).image = none
  unfold P5.showBrowserNotification
  by_cases ht : truthy (P5.resolveImageUrl d) = true
  · simpa [ht] using hnone 3 0
  · simp [ht]

/-- C7 witness: a record with image URL `https://x/i.png` in an
environment where every probe resolves not-ok on both HEAD and GET; the
validator returns `null` after its four attempts and delivery proceeds
without an image. -/
theorem c7_witness :
    P5.preloadAndValidateImage (fun _ => P5.FetchOutcome.headNotOkGetNotOk)
      ((P5.resolveImageUrl
        { title := some "T", message := some "M",
          image_url := some "https://x/i.png" }).getD "") 0 3 = none ∧
    (P5.handlePushDeliver (fun _ => P5.FetchOutcome.headNotOkGetNotOk)
      { title := some "T", message := some "M",
        image_url := some "https://x/i.png" } [true]).1.image = none ∧
    (P5.handlePushDeliver (fun _ => P5.FetchOutcome.headNotOkGetNotOk)
      { title := some "T", message := some "M",
        image_url := some "https://x/i.png" } [true]).1.title =
      P5.truncTitle (P5.resolveTitle
        { title := some "T", message := some "M",
          image_url := some "https://x/i.png" }) ∧
    (P5.handlePushDeliver (fun _ => P5.FetchOutcome.headNotOkGetNotOk)
      { title := some "T", message := some "M",
        image_url := some "https://x/i.png" } [true]).1.body =
      P5.truncBody (P5.resolveBody
        { title := some "T", message := some "M",
          image_url := some "https://x/i.png" }) ∧
    (P5.handlePushDeliver (fun _ => P5.FetchOutcome.headNotOkGetNotOk)
      { title := some "T", message := some "M",
        image_url := some "https://x/i.png" } [true]).2 =
      P5.checkAndNotifyClients [true] :=
  c7_asset_fallback (fun _ => P5.FetchOutcome.headNotOkGetNotOk)
    { title := some "T", message := some "M",
      image_url := some "https://x/i.png" } [true] (fun _ => rfl)

theorem jsSubstring_length (s : String) (n : Nat) :
    (jsSubstring s n).length = min n s.length :=
  List.length_take n s.data

theorem string_append_length (a b : String) :
    (a ++ b).length = a.length + b.length := by
  obtain ⟨la⟩ := a
  obtain ⟨lb⟩ := b
  show (la ++ lb).length = la.length + lb.length
  exact List.length_append la lb

theorem truncTitle_spec (t : String) :
    (P5.truncTitle t).length ≤ 100 ∧
    (t.length ≤ 100 → P5.truncTitle t = t) ∧
    (100 < t.length → (P5.truncTitle t).length = 100) := by
  unfold P5.truncTitle
  by_cases h : t.length > 100
  · rw [if_pos h, string_append_length, jsSubstring_length]
    have h3 : ("..." : String).length = 3 := rfl
    rw [h3]
    refine ⟨by omega, fun hle => absurd h (by omega), fun _ => by omega⟩
  · rw [if_neg h]
    exact ⟨by omega, fun _ => rfl, fun hgt => absurd hgt (by omega)⟩

theorem truncBody_spec (b : String) :
    (P5.truncBody b).length ≤ 200 ∧
    (b.length ≤ 200 → P5.truncBody b = b) ∧
    (200 < b.length → (P5.truncBody b).length = 200) := by
  unfold P5.truncBody
  by_cases h : b.length > 200
  · rw [if_pos h, string_append_length, jsSubstring_length]
    have h3 : ("..." : String).length = 3 := rfl
    rw [h3]
    refine ⟨by omega, fun hle => absurd h (by omega), fun _ => by omega⟩
  · rw [if_neg h]
    exact ⟨by omega, fun _ => rfl, fun hgt => absurd hgt (by omega)⟩

/-- C9: display-limit truncation — every shown notification has a title
of at most 100 characters and a body of at most 200; a resolved title or
body within the limit passes through unchanged, and one over the limit
is cut to 97 (resp. 197) characters plus the three-character ellipsis,
landing exactly on the limit. -/
theorem c9_display_truncation (env : Nat → P5.FetchOutcome) (d : P5.PNotif) :
    (P5.showBrowserNotification env d).title.length ≤ 100 ∧
    (P5.showBrowserNotification env d).body.length ≤ 200 ∧
    (∀ t : String, t.length ≤ 100 → P5.truncTitle t = t) ∧
    (∀ t : String, 100 < t.length → (P5.truncTitle t).length = 100) ∧
    (∀ b : String, b.length ≤ 200 → P5.truncBody b = b) ∧
    (∀ b : String, 200 < b.length → (P5.truncBody b).length = 200) := by
  refine ⟨?_, ?_, fun t => (truncTitle_spec t).2.1,
    fun t => (truncTitle_spec t).2.2,
    fun b => (truncBody_spec b).2.1, fun b => (truncBody_spec b).2.2⟩
  · show (P5.truncTitle (P5.resolveTitle d)).length ≤ 100
    exact (truncTitle_spec _).1
  · show (P5.truncBody (P5.resolveBody d)).length ≤ 200
    exact (truncBody_spec _).1

/-- C9 witness: the 101-character title is truncated to exactly 100
characters, the short title passes through unchanged, and a concrete
shown notification observes the bound. -/
theorem c9_witness :
    (P5.showBrowserNotification (fun _ => P5.FetchOutcome.headOk none)
      {}).title.length ≤ 100 ∧
    P5.truncTitle "abc" = "abc" ∧
    (P5.truncTitle ⟨List.replicate 101 'a'⟩).length = 100 ∧
    P5.truncBody "xyz" = "xyz" ∧
    (P5.truncBody ⟨List.replicate 201 'a'⟩).length = 200 :=
  ⟨(c9_display_truncation (fun _ => P5.FetchOutcome.headOk none) {}).1,
   (c9_display_truncation (fun _ => P5.FetchOutcome.headOk none) {}).2.2.1
      "abc" (by decide),
   (c9_display_truncation (fun _ => P5.FetchOutcome.headOk none) {}).2.2.2.1
      ⟨List.replicate 101 'a'⟩ (by decide),
   (c9_display_truncation (fun _ => P5.FetchOutcome.headOk none) {}).2.2.2.2.1
      "xyz" (by decide),
   (c9_display_truncation (fun _ => P5.FetchOutcome.headOk none) {}).2.2.2.2.2
      ⟨List.replicate 201 'a'⟩ (by decide)⟩
